import Mathlib

/-!
Shallow embedding of the colino content-ingestion pipeline
(`src/colino/db.py`, `src/colino/sources/rss.py`, `src/colino/sources/youtube.py`,
`src/colino/scraper.py`, `src/colino/ingest_manager.py`) together with theorems
settling the specification claims about it.

Conventions of the embedding:
- timestamps (Python `datetime`) are `Int`; comparison of datetimes is `Int` order;
- Python `None`-able values are `Option`; attribute absence on feed entries is `none`;
- external collaborators (HTTP fetch, feedparser, readability/bs4 extraction,
  transcript API, OAuth proxy) are oracle parameters, following the collaborator
  interfaces of the design document (section 6); the code of this repository that
  consumes them is translated statement by statement;
- stateful SQLite tables are explicit list-of-rows values threaded through calls.
-/

namespace Colino

/-! ## String helpers mirroring Python primitives -/

/-- Python `pattern in s` prefix step: does `hay` start with `pat`? -/
def startsWithChars : List Char → List Char → Bool
  | [], _ => true
  | _ :: _, [] => false
  | p :: ps, c :: cs => (p == c) && startsWithChars ps cs

/-- Python substring containment `pat in hay` on character lists. -/
def containsChars (pat : List Char) : List Char → Bool
  | [] => pat.isEmpty
  | c :: rest => startsWithChars pat (c :: rest) || containsChars pat rest

/-- Python substring containment `pat in s` for strings. -/
def strContains (s pat : String) : Bool :=
  containsChars pat.data s.data

/-- Whitespace characters recognized by Python `str.split()` / `str.strip()`. -/
def pyIsSpace (c : Char) : Bool :=
  c == ' ' || c == '\t' || c == '\n' || c == '\r' || c == '\x0b' || c == '\x0c'

/-- Python `s.split()` (no separator): split on whitespace runs, dropping empties. -/
def wsSplitAux : List Char → List Char → List (List Char)
  | [], [] => []
  | [], acc => [acc.reverse]
  | c :: rest, acc =>
    if pyIsSpace c then
      match acc with
      | [] => wsSplitAux rest []
      | _ :: _ => acc.reverse :: wsSplitAux rest []
    else wsSplitAux rest (c :: acc)

/-- Python `' '.join(s.split())`: collapse all whitespace runs to single spaces. -/
def normalizeWs (s : String) : String :=
  String.intercalate " " ((wsSplitAux s.data []).map (fun l => String.mk l))

/-- Python `s.lower()` (ASCII case folding, which covers every keyword and
URL the sources compare). -/
def pyLower (s : String) : String :=
  String.mk (s.data.map Char.toLower)

/-- Python `s.strip()` on a string. -/
def pyStrip (s : String) : String :=
  String.mk ((s.data.dropWhile (fun c => pyIsSpace c)).reverse.dropWhile
    (fun c => pyIsSpace c)).reverse

/-- Scan after a literal `<` for the shortest `[^<]+?>` match of the tag regex
`<[^<]+?>` used in `_process_rss_entry`; returns the remainder after the closing
`>` when the tag matches.  The `Nat` counts middle characters consumed so far. -/
def tagRemainder : List Char → Nat → Option (List Char)
  | [], _ => none
  | c :: rest, n =>
    if c == '<' then none
    else if c == '>' then (if n == 0 then tagRemainder rest 1 else some rest)
    else tagRemainder rest (n + 1)

/-- Fuel-indexed scanner for `re.sub('<[^<]+?>', '', s)`: drops every
non-overlapping leftmost match.  Fuel is the list length, always sufficient. -/
def stripTagsFuel : Nat → List Char → List Char
  | 0, l => l
  | _ + 1, [] => []
  | fuel + 1, c :: rest =>
    if c == '<' then
      match tagRemainder rest 0 with
      | some rem => stripTagsFuel fuel rem
      | none => c :: stripTagsFuel fuel rest
    else c :: stripTagsFuel fuel rest

/-- Python `re.sub('<[^<]+?>', '', s)` as used for the content preview. -/
def stripTags (s : String) : String :=
  String.mk (stripTagsFuel (s.data.length + 1) s.data)

/-! ## Data model

`Metadata` models the open metadata dictionary attached to every post; the keys
below are exactly the ones written by the RSS and YouTube adapters.  A key the
adapter has not written is the structure default, matching `dict.get` fallbacks. -/

structure Metadata where
  feed_url : String := ""
  feed_title : String := ""
  entry_title : String := ""
  entry_author : String := ""
  entry_tags : List String := []
  rss_content : String := ""
  content_preview : String := ""
  video_id : Option String := none
  channel_id : Option String := none
  youtube_video_id : Option String := none
deriving Repr, DecidableEq

/-- The standardized post dictionary produced by `_create_post_data`. -/
structure Post where
  id : String
  source : String
  author_username : String
  author_display_name : String
  content : String
  url : String
  created_at : Int
  like_count : Int
  reply_count : Int
  metadata : Metadata
deriving Repr, DecidableEq

/-- One row of the `content_cache` table (schema in `Database.init_database`). -/
structure Row where
  id : String
  source : String
  author_username : String
  author_display_name : String
  content : String
  url : String
  created_at : Int
  fetched_at : Int
  metadata : Metadata
  like_count : Int
  reply_count : Int
deriving Repr, DecidableEq

/-- The `content_cache` table: a list of rows with unique primary key `id`. -/
abbrev ContentStore := List Row

/-- A feedparser entry as consumed by `_process_rss_entry` and its helpers.
`none` models both an absent attribute and a falsy value where the source tests
truthiness (`published_parsed`, `entry.content`); `summary` is `some ""` when
the attribute is present but empty, since the source only tests `hasattr`. -/
structure Entry where
  guid : Option String := none
  link : Option String := none
  title : Option String := none
  author : Option String := none
  published : Option Int := none
  updated : Option Int := none
  contentValue : Option String := none
  summary : Option String := none
  description : Option String := none
  tags : List String := []
deriving Repr, DecidableEq

/-- The feedparser result for one feed URL, before `parse_feed` applies its
dictionary defaults.  A fetch/parse failure (network error, raised status,
parser exception) is `none` at the oracle, matching the `except` branch. -/
structure RawFeed where
  title : Option String := none
  description : Option String := none
  link : Option String := none
  author : Option String := none
  entries : List Entry := []
deriving Repr, DecidableEq

/-- The dictionary `parse_feed` returns on success. -/
structure FeedData where
  url : String
  title : String
  description : String
  link : String
  entries : List Entry
  author : String
deriving Repr, DecidableEq

/-! ## Content Store operations (`src/colino/db.py`) -/

/-- Modelled from the spec: `Database.get_content_by` is called throughout the
sources (`rss.py`, `ingest_manager.py`, `digest_manager.py`, `main.py`) but its
definition is not among the source files; only `get_post_by` (same query shape)
is.  Per section 4.1 of the design it is the Content Store's exact id lookup
`get(id) -> Content Record | absent`, and its call sites confirm the id keying:
`main.py` calls `db.get_content_by(id=post_id)` and `digest_manager.py` first
tries `get_content_by(url)` commented "try to find content by ID (the URL
itself might be the ID)" before falling back to the separate
`get_content_by_url`.  `SELECT * FROM content_cache WHERE id = ?`. -/
def get_content_by (st : ContentStore) (id : String) : Option Row :=
  st.find? (fun r => r.id == id)

/-- The row inserted by `save_post`'s `INSERT OR REPLACE`: every column of the
statement's column list takes the supplied value; `fetched_at` is not in the
column list, so the freshly inserted row takes the schema default
`CURRENT_TIMESTAMP`, i.e. the time `now` of this save. -/
def saved_row (now : Int) (p : Post) : Row :=
  { id := p.id
    source := p.source
    author_username := p.author_username
    author_display_name := p.author_display_name
    content := p.content
    url := p.url
    created_at := p.created_at
    fetched_at := now
    metadata := p.metadata
    like_count := p.like_count
    reply_count := p.reply_count }

/-- `Database.save_post`: `INSERT OR REPLACE INTO content_cache (...)`.
SQLite `INSERT OR REPLACE` deletes any row conflicting on the primary key `id`
and inserts a fresh row, whose unlisted columns take their defaults. -/
def save_post (now : Int) (st : ContentStore) (p : Post) : ContentStore :=
  (st.filter (fun r => r.id != p.id)) ++ [saved_row now p]

/-! ## Article scraper (`src/colino/scraper.py`)

The HTTP fetch, readability `Document` extraction, BeautifulSoup parse, element
removal and `get_text` are the external article-extraction collaborator
(design document section 6); the oracle argument is its best-effort main text,
`none` on a network error or any extraction exception.  The whitespace cleanup
and the minimum-length gate are source code of `scrape_article_content`. -/

/-- `ArticleScraper.scrape_article_content`.  `extracted` is the collaborator
result; the function cleans whitespace and keeps the text only when it is
substantial (`len(content) > 100`). -/
def scrape_article_content (extracted : Option String) : Option String :=
  match extracted with
  | none => none
  | some txt =>
    let content := normalizeWs txt
    if 100 < content.length then some content else none

/-! ## RSS adapter (`src/colino/sources/rss.py`) -/

/-- `RSSSource._parse_entry_date`: `published_parsed` when present and truthy,
else `updated_parsed` when present and truthy, else `None`. -/
def parse_entry_date (e : Entry) : Option Int :=
  match e.published with
  | some p => some p
  | none => e.updated

/-- `RSSSource._extract_rss_content`: structured content first, then summary,
then description, else the empty string. -/
def extract_rss_content (e : Entry) : String :=
  match e.contentValue with
  | some v => v
  | none =>
    match e.summary with
    | some s => s
    | none => e.description.getD ""

/-- `RSSSource._should_skip_post`.  Checked in source order, first match wins:
too old (`since_time and pub_date and pub_date < since_time`), already cached
(`self.db and self.db.get_content_by(url)` — note the store lookup is keyed by
the post URL), junk URL (`url and '/shorts/' in url`).  `db = none` models an
`RSSSource` constructed without a database. -/
def should_skip_post (db : Option ContentStore) (url : String)
    (since_time pub_date : Option Int) : Bool :=
  if (match since_time, pub_date with
      | some s, some p => decide (p < s)
      | _, _ => false) then true
  else if (match db with
      | some st => (get_content_by st url).isSome
      | none => false) then true
  else if url != "" && strContains url "/shorts/" then true
  else false

/-- `RSSSource._enhance_content`: append the scraped article text under the
`Full Content` delimiter only when the scrape produced something truthy that is
strictly longer than the RSS body; otherwise keep the body unchanged.
`scrape` is the per-URL extraction oracle fed to `scrape_article_content`. -/
def enhance_content (scrape : String → Option String)
    (rss_content article_url : String) : String :=
  let full_content := rss_content
  match scrape_article_content (scrape article_url) with
  | some scraped =>
    if scraped != "" && rss_content.length < scraped.length then
      full_content ++ "\nFull Content:\n" ++ scraped
    else full_content
  | none => full_content

/-- `RSSSource._create_post_data` as called from `_process_rss_entry`:
`like_count` and `reply_count` fall back to their `kwargs.get` default `0`. -/
def create_post_data (id source author_username author_display_name
    content url : String) (created_at : Int) (metadata : Metadata) : Post :=
  { id := id
    source := source
    author_username := author_username
    author_display_name := author_display_name
    content := content
    url := url
    created_at := created_at
    like_count := 0
    reply_count := 0
    metadata := metadata }

/-- `RSSSource._process_rss_entry`: id computation with link fallback, skip
policy, content extraction and enhancement, preview cleanup, normalization.
`now` is the ingestion-time `datetime.now(timezone.utc)`. -/
def process_rss_entry (now : Int) (scrape : String → Option String)
    (db : Option ContentStore) (e : Entry) (feed : FeedData)
    (feed_url : String) (since_time : Option Int) : Option Post :=
  let pub_date := parse_entry_date e
  let post_id := match e.guid with
    | some g => g
    | none => e.link.getD ""
  if post_id = "" then none
  else
    let article_url := e.link.getD ""
    if should_skip_post db article_url since_time pub_date then none
    else
      let rss_content := extract_rss_content e
      let full_content := enhance_content scrape rss_content article_url
      let content_preview := (stripTags rss_content).take 500
      some (create_post_data post_id "rss" feed.title feed.title full_content
        article_url (pub_date.getD now)
        { feed_url := feed_url
          feed_title := feed.title
          entry_title := e.title.getD ""
          entry_author := e.author.getD ""
          entry_tags := e.tags
          rss_content := rss_content
          content_preview := content_preview })

/-- `RSSSource.parse_feed`: fetch and parse one feed; any exception is caught
and surfaces as `None`; on success the feedparser dictionary defaults apply. -/
def parse_feed (fetch : String → Option RawFeed) (feed_url : String) :
    Option FeedData :=
  match fetch feed_url with
  | none => none
  | some raw =>
    some { url := feed_url
           title := raw.title.getD "Unknown Feed"
           description := raw.description.getD ""
           link := raw.link.getD ""
           entries := raw.entries
           author := raw.author.getD "" }

/-- Stable insertion step for the final `all_posts.sort(...)`. -/
def insertDesc (x : Post) : List Post → List Post
  | [] => [x]
  | y :: ys => if y.created_at ≤ x.created_at then x :: y :: ys
               else y :: insertDesc x ys

/-- Python `all_posts.sort(key=lambda x: x['created_at'] or datetime.min...,
reverse=True)`: a stable sort by `created_at`, newest first.  The
`or datetime.min` fallback is dead code — `created_at` is always a (truthy)
datetime from `_create_post_data`.  Insertion sort realizes the same stable
descending order as Python's stable sort. -/
def sortByCreatedAtDesc : List Post → List Post
  | [] => []
  | p :: ps => insertDesc p (sortByCreatedAtDesc ps)

/-- `RSSSource.get_posts_from_feeds`: gather posts from every feed, skipping a
feed whose fetch/parse failed (`if not feed_data: continue`, and the enclosing
`except ...: continue`), then sort newest first. -/
def get_posts_from_feeds (now : Int) (fetch : String → Option RawFeed)
    (scrape : String → Option String) (db : Option ContentStore)
    (feed_urls : List String) (since_time : Option Int) : List Post :=
  let all_posts := feed_urls.flatMap (fun u =>
    match parse_feed fetch u with
    | none => []
    | some feed_data =>
      feed_data.entries.filterMap (fun e =>
        process_rss_entry now scrape db e feed_data u since_time))
  sortByCreatedAtDesc all_posts

/-! ## YouTube adapter (`src/colino/sources/youtube.py`)

The token manager (`..oauth_proxy`, not among the source files; design document
section 4.4 describes it) enters only through two fallible operations, each
modelled as this run's `Except` outcome: `token_manager.get_access_token()`
bundled with the credential/service construction of the first `try` block, and
`token_manager.authenticate()` bundled with the construction of the second. -/

/-- `urlparse(url).query`: the part after the first `?` of the pre-fragment
part (percent-decoding is not performed by `urlparse`). -/
def urlQuery (url : String) : String :=
  let beforeFrag := (url.splitOn "#").headD ""
  match beforeFrag.splitOn "?" with
  | [] => ""
  | [_] => ""
  | _ :: rest => String.intercalate "?" rest

/-- `parse_qs(query)[key][0]` when present: first `key=value` pair with a
non-empty value, scanning `&`-separated pieces in order (default
`keep_blank_values=False` drops empty values; percent-decoding of values,
which never occurs in YouTube video ids, is elided). -/
def parseQsFirst (query key : String) : Option String :=
  ((query.splitOn "&").filterMap (fun piece =>
    match piece.splitOn "=" with
    | k :: v :: rest =>
      let value := String.intercalate "=" (v :: rest)
      if k == key && value != "" then some value else none
    | _ => none)).head?

/-- Python `url.split(sep)[-1]`: the part after the last occurrence of `sep`. -/
def afterLast (url sep : String) : String :=
  (url.splitOn sep).getLastD ""

/-- Python `s.split(sep)[0]`: the part before the first occurrence of `sep`. -/
def beforeFirst (s sep : String) : String :=
  (s.splitOn sep).headD ""

/-- Pattern loop body of `YouTubeSource.extract_video_id`. -/
def extractVideoIdGo (url : String) : List String → Option String
  | [] => none
  | pattern :: rest =>
    if strContains url pattern then
      if pattern == "youtu.be/" then
        some (beforeFirst (beforeFirst (afterLast url "youtu.be/") "?") "&")
      else
        let q := urlQuery url
        match (if q != "" then parseQsFirst q "v" else none) with
        | some v => some v
        | none =>
          if strContains url "/embed/" then
            some (beforeFirst (afterLast url "/embed/") "?")
          else if strContains url "/v/" then
            some (beforeFirst (afterLast url "/v/") "?")
          else extractVideoIdGo url rest
    else extractVideoIdGo url rest

/-- `YouTubeSource.extract_video_id`: recognize the four accepted URL shapes,
returning `none` for anything else. -/
def extract_video_id (url : String) : Option String :=
  if url = "" then none
  else extractVideoIdGo url
    ["youtube.com/watch?v=", "youtu.be/", "youtube.com/embed/", "youtube.com/v/"]

/-- `YouTubeSource.get_video_transcript`: gated by the
`YOUTUBE_EXTRACT_TRANSCRIPTS` config flag; the transcript API fetch plus text
formatting is the collaborator oracle (`none` for no transcript, an empty
fetch, or an API exception); the newline replacement and whitespace cleanup
are source code. -/
def get_video_transcript (extract_flag : Bool)
    (transcript_api : String → Option String) (video_id : String) :
    Option String :=
  if !extract_flag then none
  else
    match transcript_api video_id with
    | none => none
    | some t =>
      some (normalizeWs (String.mk (t.data.map
        (fun c => if c == '\n' then ' ' else c))))

/-- `YouTubeSource.enhance_youtube_post`: with a recognized video id and a
truthy transcript, record the id in metadata and append the transcript to the
body under the `--- YouTube Transcript ---` delimiter; otherwise return the
post unmodified. -/
def enhance_youtube_post (extract_flag : Bool)
    (transcript_api : String → Option String) (post : Post) : Post :=
  match extract_video_id post.url with
  | none => post
  | some video_id =>
    match get_video_transcript extract_flag transcript_api video_id with
    | none => post
    | some transcript =>
      if transcript = "" then post
      else
        { post with
          metadata := { post.metadata with youtube_video_id := some video_id }
          content := post.content ++ "\n\n--- YouTube Transcript ---\n"
            ++ transcript }

/-- `YouTubeSource.authenticate`: try the token manager's acquisition; on any
exception attempt one forced re-authentication; on a second exception report
failure.  `g` is the first acquisition's outcome, `f` the forced one's. -/
def authenticate (g f : Except String String) : Bool :=
  match g with
  | Except.ok _ => true
  | Except.error _ =>
    match f with
    | Except.ok _ => true
    | Except.error _ => false

/-- Number of forced re-authentication attempts (`token_manager.authenticate()`
calls) one `YouTubeSource.authenticate` call performs: the `except` branch runs
it exactly once, whatever its outcome; the success path never runs it. -/
def forcedReauthAttempts (g : Except String String) : Nat :=
  match g with
  | Except.ok _ => 0
  | Except.error _ => 1

/-- One item of the paginated subscription listing, as read from the response
snippets; the listing oracle is the accumulated result of the pagination loop,
`Except.error` when a page request raises `HttpError`. -/
structure RawSub where
  channelId : String
  title : String
  description : String
  thumbnailUrl : String
  publishedAt : String
deriving Repr, DecidableEq

/-- A `youtube_subscriptions` record as built by `get_subscriptions`. -/
structure Subscription where
  channel_id : String
  channel_title : String
  channel_description : String
  thumbnail_url : String
  subscribed_at : String
  rss_url : String
deriving Repr, DecidableEq

/-- `YouTubeSource.get_subscriptions`: raises unless authenticated, re-raises
`HttpError` from the listing, otherwise maps each snippet to a subscription
record with the channel's derived feed URL. -/
def get_subscriptions (auth : Bool)
    (listing : Except String (List RawSub)) :
    Except String (List Subscription) :=
  if !auth then Except.error "Failed to authenticate with YouTube API"
  else
    match listing with
    | Except.error e => Except.error e
    | Except.ok items =>
      Except.ok (items.map (fun it =>
        { channel_id := it.channelId
          channel_title := it.title
          channel_description := it.description
          thumbnail_url := it.thumbnailUrl
          subscribed_at := it.publishedAt
          rss_url := "https://www.youtube.com/feeds/videos.xml?channel_id="
            ++ it.channelId }))

/-- Per-post processing loop body of `YouTubeSource.get_recent_content`:
re-tag the source, attach video and channel metadata when the video id is
recognized, and only then enhance with a transcript. -/
def processYoutubePost (extract_flag : Bool)
    (transcript_api : String → Option String) (subs : List Subscription)
    (post : Post) : Post :=
  let post := { post with source := "youtube" }
  match extract_video_id post.url with
  | none => post
  | some video_id =>
    let md := { post.metadata with video_id := some video_id }
    let md := match subs.find? (fun sub =>
        sub.rss_url == post.metadata.feed_url) with
      | some sub => { md with channel_id := some sub.channel_id }
      | none => md
    enhance_youtube_post extract_flag transcript_api
      { post with metadata := md }

/-- `YouTubeSource.get_recent_content`: authentication failure returns the
empty list; inside the `try`, a raising subscription listing is caught by the
catch-all and returns the empty list; an empty subscription list returns the
empty list; otherwise every subscription's feed goes through the RSS adapter
and each post is re-tagged and enhanced.  (The subscription sync writes the
separate `youtube_subscriptions` table, which no modelled read consults.) -/
def get_recent_content (now : Int) (g f : Except String String)
    (listing : Except String (List RawSub)) (fetch : String → Option RawFeed)
    (scrape : String → Option String) (extract_flag : Bool)
    (transcript_api : String → Option String) (db : Option ContentStore)
    (since_time : Option Int) : List Post :=
  if !authenticate g f then []
  else
    match get_subscriptions (authenticate g f) listing with
    | Except.error _ => []
    | Except.ok subscriptions =>
      if subscriptions.isEmpty then []
      else
        let rss_feeds := subscriptions.map (fun sub => sub.rss_url)
        let youtube_posts :=
          get_posts_from_feeds now fetch scrape db rss_feeds since_time
        youtube_posts.map
          (processYoutubePost extract_flag transcript_api subscriptions)

/-! ## Ingestion orchestrator keyword filter (`src/colino/ingest_manager.py`) -/

/-- The searchable text of `_apply_content_filter`:
`f"{post['content']} {post.get('metadata', {}).get('entry_title', '')}".lower()`. -/
def combinedText (post : Post) : String :=
  pyLower (post.content ++ " " ++ post.metadata.entry_title)

/-- The loop body of `_apply_content_filter` for one post: survive the include
gate (when `FILTER_KEYWORDS` is truthy, some non-blank keyword must match
case-insensitively) and then the exclude gate (when `EXCLUDE_KEYWORDS` is
truthy, no non-blank keyword may match). -/
def postKept (includes excludes : List String) (post : Post) : Bool :=
  let content_text := combinedText post
  (if includes.isEmpty then true
   else includes.any (fun k =>
     pyStrip k != "" && strContains content_text (pyLower k))) &&
  (if excludes.isEmpty then true
   else !(excludes.any (fun k =>
     pyStrip k != "" && strContains content_text (pyLower k))))

/-- `IngestManager._apply_content_filter`: keep, in order, every post that
passes both gates (`continue` drops a post; survivors are appended). -/
def apply_content_filter (includes excludes : List String)
    (posts : List Post) : List Post :=
  posts.filter (postKept includes excludes)

/-! ## Concrete fixtures used by counterexamples and witnesses -/

/-- A feed entry carrying a GUID distinct from its link, a fresh publication
date and a plain summary — the ordinary shape of an RSS item. -/
def entryA : Entry :=
  { guid := some "guid-1"
    link := some "https://example.com/a"
    title := some "A"
    published := some 100
    summary := some "hello" }

/-- The feed holding `entryA`. -/
def rawFeedA : RawFeed := { title := some "Feed A", entries := [entryA] }

/-- Fetch oracle: the one configured feed parses to `rawFeedA`; everything
else fails. -/
def fetchA : String → Option RawFeed := fun u =>
  if u = "https://feeds.example.com/a.xml" then some rawFeedA else none

/-- Scrape oracle that always fails (enhancement is a no-op). -/
def noScrape : String → Option String := fun _ => none

/-- First ingestion run over the feed against an empty store. -/
def run1Posts : List Post :=
  get_posts_from_feeds 200 fetchA noScrape (some [])
    ["https://feeds.example.com/a.xml"] (some 50)

/-- The store after the orchestrator persists run 1's posts via `save_post`. -/
def store1 : ContentStore := run1Posts.foldl (save_post 200) []

/-- Second ingestion run over the unchanged feed against the updated store. -/
def run2Posts : List Post :=
  get_posts_from_feeds 300 fetchA noScrape (some store1)
    ["https://feeds.example.com/a.xml"] (some 50)

/-- A stored row with `fetched_at = 0`, as first stored at time 0. -/
def rowOld : Row :=
  { id := "p1"
    source := "rss"
    author_username := "Feed"
    author_display_name := "Feed"
    content := "old content"
    url := "https://example.com/p"
    created_at := 5
    fetched_at := 0
    metadata := {}
    like_count := 0
    reply_count := 0 }

/-- A re-save of the record `p1` with fresh column values. -/
def postP1 : Post :=
  { id := "p1"
    source := "rss"
    author_username := "Feed"
    author_display_name := "Feed"
    content := "new content"
    url := "https://example.com/p"
    created_at := 6
    like_count := 0
    reply_count := 0
    metadata := { entry_title := "T" } }

/-! ## Claim C2 — `fetched_at` on re-save -/

/-- C2 counterexample: the store holds record `p1` first stored at time 0
(`fetched_at = 0`); re-saving a record with the same id at time 7 does NOT
leave the stored `fetched_at` unchanged — `INSERT OR REPLACE` replaces the row
and the unlisted `fetched_at` column takes its default, the re-save time 7. -/
theorem resave_updates_fetched_at_cex :
    (get_content_by (save_post 7 [rowOld] postP1) "p1").map Row.fetched_at
      = some 7
    ∧ ¬ ((get_content_by (save_post 7 [rowOld] postP1) "p1").map Row.fetched_at
      = some 0) := by
  constructor
  · rfl
  · decide

/-- C2 amended: re-saving a record with the same id replaces the stored row;
the columns of the insert list take the newly supplied values, and `fetched_at`
takes the schema default — the time of this re-save — rather than the
first-store timestamp. -/
theorem save_post_resets_fetched_at (now : Int) (st : ContentStore) (p : Post) :
    get_content_by (save_post now st p) p.id = some (saved_row now p)
    ∧ (saved_row now p).fetched_at = now
    ∧ (saved_row now p).content = p.content
    ∧ (saved_row now p).url = p.url
    ∧ (saved_row now p).created_at = p.created_at
    ∧ (saved_row now p).metadata = p.metadata := by
  refine ⟨?_, rfl, rfl, rfl, rfl, rfl⟩
  unfold save_post get_content_by
  induction st with
  | nil => simp [saved_row]
  | cons r rest ih =>
    by_cases h : r.id = p.id
    · simp [List.filter, h, ih]
    · simp only [List.filter]
      have hb : (r.id != p.id) = true := by
        simp [bne_iff_ne, h]
      rw [hb]
      simp only [List.cons_append, List.find?]
      have hb2 : (r.id == p.id) = false := by
        simp [h]
      rw [hb2]
      exact ih

/-- Witness for `save_post_resets_fetched_at` at a concrete input: re-saving
`p1` at time 7 yields exactly the replacement row. -/
theorem save_post_resets_fetched_at_witness :
    get_content_by (save_post 7 [rowOld] postP1) postP1.id
      = some (saved_row 7 postP1) :=
  (save_post_resets_fetched_at 7 [rowOld] postP1).1

/-! ## Claim C9 — strictness of the `since_time` bound -/

/-- The feed dictionary `parse_feed` produces for `rawFeedA`. -/
def feedDataA : FeedData :=
  { url := "https://feeds.example.com/a.xml"
    title := "Feed A"
    description := ""
    link := ""
    entries := [entryA]
    author := "" }

/-- C9 counterexample: an entry whose publication date (100) equals
`since_time` (100) exactly is NOT excluded — the age gate only skips strictly
older entries (`pub_date < since_time`), so the entry is processed and a post
is returned. -/
theorem equal_since_time_included_cex :
    entryA.published = some 100
    ∧ should_skip_post (some []) "https://example.com/a" (some 100) (some 100)
      = false
    ∧ (process_rss_entry 200 noScrape (some []) entryA feedDataA
        "https://feeds.example.com/a.xml" (some 100)) ≠ none := by
  refine ⟨rfl, rfl, ?_⟩
  decide

/-- C9 amended: `since_time` is an INCLUSIVE lower bound with no upper bound —
an entry strictly older than `since_time` is always age-skipped, while an
entry whose publication date is equal to or newer than `since_time` is treated
by the skip policy exactly as if no `since_time` bound were given. -/
theorem since_time_inclusive_bound (db : Option ContentStore) (url : String)
    (s p : Int) :
    (p < s → should_skip_post db url (some s) (some p) = true)
    ∧ (s ≤ p → should_skip_post db url (some s) (some p)
        = should_skip_post db url none (some p)) := by
  constructor
  · intro h
    simp [should_skip_post, h]
  · intro h
    have hns : ¬ p < s := not_lt.mpr h
    simp [should_skip_post, hns]

/-- Witness for `since_time_inclusive_bound` at concrete inputs: publication
date 40 against bound 100 skips; publication date 100 against bound 100
behaves like no bound at all. -/
theorem since_time_inclusive_bound_witness :
    should_skip_post (some []) "https://example.com/a" (some 100) (some 40)
      = true
    ∧ should_skip_post (some []) "https://example.com/a" (some 100) (some 100)
      = should_skip_post (some []) "https://example.com/a" none (some 100) :=
  ⟨(since_time_inclusive_bound (some []) "https://example.com/a" 100 40).1
      (by decide),
   (since_time_inclusive_bound (some []) "https://example.com/a" 100 100).2
      (by decide)⟩

/-! ## Claim C3 — the skip policy -/

/-- The row run 1 stores for `entryA`: primary key is the entry GUID, not the
entry link. -/
def storedRowA : Row :=
  { id := "guid-1"
    source := "rss"
    author_username := "Feed A"
    author_display_name := "Feed A"
    content := "hello"
    url := "https://example.com/a"
    created_at := 100
    fetched_at := 200
    metadata := { feed_url := "https://feeds.example.com/a.xml"
                  feed_title := "Feed A"
                  entry_title := "A"
                  rss_content := "hello"
                  content_preview := "hello" }
    like_count := 0
    reply_count := 0 }

/-- C3 counterexample: the Content Store holds this entry's id (`guid-1`), the
entry passes the age gate and its URL is not junk, yet `_should_skip_post`
does NOT skip it — the cache check queries the id-keyed lookup with the
entry's URL (`https://example.com/a`), which finds nothing. -/
theorem skip_policy_id_key_cex :
    (get_content_by [storedRowA] "guid-1").isSome = true
    ∧ entryA.guid = some "guid-1"
    ∧ entryA.link = some "https://example.com/a"
    ∧ should_skip_post (some [storedRowA]) "https://example.com/a"
        (some 50) (some 100) = false := by
  decide

/-- Boolean normal form of the skip policy: the ordered if-chain of
`_should_skip_post` computes the disjunction of its three conditions. -/
theorem should_skip_post_eq (st : ContentStore) (url : String)
    (since_time pub_date : Option Int) :
    should_skip_post (some st) url since_time pub_date
      = ((match since_time, pub_date with
          | some s, some p => decide (p < s)
          | _, _ => false)
        || (get_content_by st url).isSome
        || (url != "" && strContains url "/shorts/")) := by
  unfold should_skip_post
  cases h1 : (match since_time, pub_date with
      | some s, some p => decide (p < s)
      | _, _ => false) <;>
    cases h2 : (get_content_by st url).isSome <;>
    cases h3 : (url != "" && strContains url "/shorts/") <;>
    simp [h1, h2, h3]

/-- C3 amended: the skip policy is applied per entry in this order, first
match wins: (a) publication date present and strictly earlier than
`since_time` — skip; (b) the Content Store already holds a record whose id
equals the entry's URL (the gate passes the URL to the id-keyed store lookup)
— skip; (c) the URL contains the short-form video segment `/shorts/` — skip;
otherwise the entry is processed. -/
theorem should_skip_post_policy (st : ContentStore) (url : String)
    (since_time pub_date : Option Int) :
    should_skip_post (some st) url since_time pub_date = true
      ↔ ((∃ s p, since_time = some s ∧ pub_date = some p ∧ p < s)
        ∨ (¬ (∃ s p, since_time = some s ∧ pub_date = some p ∧ p < s)
            ∧ (get_content_by st url).isSome = true)
        ∨ (¬ (∃ s p, since_time = some s ∧ pub_date = some p ∧ p < s)
            ∧ ¬ (get_content_by st url).isSome = true
            ∧ (url ≠ "" ∧ strContains url "/shorts/" = true))) := by
  rw [should_skip_post_eq]
  have hm : (match since_time, pub_date with
      | some s, some p => decide (p < s)
      | _, _ => false) = true
      ↔ (∃ s p, since_time = some s ∧ pub_date = some p ∧ p < s) := by
    rcases since_time with _ | s <;> rcases pub_date with _ | p <;> simp
  have hb : ((url != "" && strContains url "/shorts/") = true)
      ↔ (url ≠ "" ∧ strContains url "/shorts/" = true) := by
    simp [Bool.and_eq_true, bne_iff_ne]
  constructor
  · intro h
    simp only [Bool.or_eq_true] at h
    rcases h with (ha | hB) | hc
    · exact Or.inl (hm.mp ha)
    · by_cases hA : (∃ s p, since_time = some s ∧ pub_date = some p ∧ p < s)
      · exact Or.inl hA
      · exact Or.inr (Or.inl ⟨hA, hB⟩)
    · by_cases hA : (∃ s p, since_time = some s ∧ pub_date = some p ∧ p < s)
      · exact Or.inl hA
      · by_cases hB : (get_content_by st url).isSome = true
        · exact Or.inr (Or.inl ⟨hA, hB⟩)
        · exact Or.inr (Or.inr ⟨hA, hB, hb.mp hc⟩)
  · intro h
    simp only [Bool.or_eq_true]
    rcases h with hA | ⟨_, hB⟩ | ⟨_, _, hC⟩
    · exact Or.inl (Or.inl (hm.mpr hA))
    · exact Or.inl (Or.inr hB)
    · exact Or.inr (hb.mpr hC)

/-- Witness for `should_skip_post_policy` at concrete inputs: a `/shorts/`
URL not in the store and not too old is skipped by clause (c). -/
theorem should_skip_post_policy_witness :
    should_skip_post (some []) "https://youtube.com/shorts/zzz" none none
      = true :=
  (should_skip_post_policy [] "https://youtube.com/shorts/zzz" none none).mpr
    (Or.inr (Or.inr ⟨(by rintro ⟨s, p, h, -⟩; cases h),
      (by decide), (by decide), (by decide)⟩))

/-! ## Claim C7 — publication date fallback -/

/-- An entry without any timestamp, used to witness the fallback. -/
def entryB : Entry :=
  { guid := some "guid-2"
    link := some "https://example.com/b"
    title := some "B"
    summary := some "no dates here" }

/-- C7: the publication date is the entry's published timestamp, falling back
to its updated timestamp, falling back to `None`; an entry without a
publication date is never skipped by the age gate (the gate behaves exactly as
if no `since_time` were given); every processed entry's `created_at` is the
publication date, falling back to the ingestion-time `now`; in particular an
entry with neither timestamp that is processed gets `created_at = now`. -/
theorem entry_date_fallback :
    (∀ e : Entry, parse_entry_date e
        = (match e.published with | some x => some x | none => e.updated))
    ∧ (∀ (db : Option ContentStore) (url : String) (since : Option Int),
        should_skip_post db url since none
          = should_skip_post db url none none)
    ∧ (∀ (now : Int) (scrape : String → Option String)
        (db : Option ContentStore) (e : Entry) (feed : FeedData)
        (feed_url : String) (since : Option Int) (p : Post),
        process_rss_entry now scrape db e feed feed_url since = some p →
          p.created_at = (parse_entry_date e).getD now)
    ∧ (∀ (now : Int) (scrape : String → Option String)
        (db : Option ContentStore) (e : Entry) (feed : FeedData)
        (feed_url : String) (since : Option Int) (p : Post),
        e.published = none → e.updated = none →
        process_rss_entry now scrape db e feed feed_url since = some p →
          p.created_at = now) := by
  have hdate : ∀ e : Entry, parse_entry_date e
      = (match e.published with | some x => some x | none => e.updated) := by
    intro e
    rfl
  have hskip : ∀ (db : Option ContentStore) (url : String)
      (since : Option Int), should_skip_post db url since none
        = should_skip_post db url none none := by
    intro db url since
    rcases since with _ | s <;> rfl
  have hcreated : ∀ (now : Int) (scrape : String → Option String)
      (db : Option ContentStore) (e : Entry) (feed : FeedData)
      (feed_url : String) (since : Option Int) (p : Post),
      process_rss_entry now scrape db e feed feed_url since = some p →
        p.created_at = (parse_entry_date e).getD now := by
    intro now scrape db e feed feed_url since p h
    simp only [process_rss_entry] at h
    by_cases h1 : (match e.guid with | some g => g | none => e.link.getD "") = ""
    · rw [if_pos h1] at h
      cases h
    · rw [if_neg h1] at h
      by_cases h2 : should_skip_post db (e.link.getD "") since
          (parse_entry_date e) = true
      · rw [if_pos h2] at h
        cases h
      · rw [if_neg h2] at h
        rw [Option.some_inj] at h
        rw [← h]
        rfl
  refine ⟨hdate, hskip, hcreated, ?_⟩
  intro now scrape db e feed feed_url since p hp hu h
  have := hcreated now scrape db e feed feed_url since p h
  rw [this]
  unfold parse_entry_date
  rw [hp, hu]
  rfl

/-- Witness for `entry_date_fallback`: the timestampless `entryB` is processed
(not dropped as too old even under a `since_time` bound) and its `created_at`
is the ingestion time 42. -/
theorem entry_date_fallback_witness :
    (process_rss_entry 42 noScrape (some []) entryB feedDataA
        "https://feeds.example.com/b.xml" (some 100)).map Post.created_at
      = some 42 := by
  cases hp : process_rss_entry 42 noScrape (some []) entryB feedDataA
      "https://feeds.example.com/b.xml" (some 100) with
  | none => exact absurd hp (by decide)
  | some p =>
    simp only [Option.map_some']
    exact congrArg some (entry_date_fallback.2.2.2 42 noScrape (some []) entryB
      feedDataA "https://feeds.example.com/b.xml" (some 100) p rfl rfl hp)

/-! ## Claim C8 — failure isolation across feeds -/

/-- C8: a feed whose fetch/parse fails is skipped and does not disturb the
rest of the call — `get_posts_from_feeds` (a total function: no exception
escapes a feed's processing) returns exactly what it returns without the
failing feed, i.e. every successful feed's entries survive. -/
theorem feed_failure_isolation (now : Int) (fetch : String → Option RawFeed)
    (scrape : String → Option String) (db : Option ContentStore)
    (fs1 fs2 : List String) (bad : String) (since : Option Int)
    (hbad : fetch bad = none) :
    get_posts_from_feeds now fetch scrape db (fs1 ++ bad :: fs2) since
      = get_posts_from_feeds now fetch scrape db (fs1 ++ fs2) since := by
  unfold get_posts_from_feeds
  rw [List.flatMap_append, List.flatMap_cons, List.flatMap_append]
  simp [parse_feed, hbad]

/-- Witness for `feed_failure_isolation`: inserting an unparsable feed URL
between the good feed and the end changes nothing. -/
theorem feed_failure_isolation_witness :
    get_posts_from_feeds 200 fetchA noScrape (some [])
        (["https://feeds.example.com/a.xml"] ++ "https://bad.example.com/x" :: [])
        (some 50)
      = get_posts_from_feeds 200 fetchA noScrape (some [])
        (["https://feeds.example.com/a.xml"] ++ []) (some 50) :=
  feed_failure_isolation 200 fetchA noScrape (some [])
    ["https://feeds.example.com/a.xml"] [] "https://bad.example.com/x"
    (some 50) (by decide)

/-! ## Claim C6 — keyword filter characterization -/

/-- The claim's keep-condition, written from the specification's words: with
an include list configured, some (non-blank) include keyword occurs in the
combined searchable text as a case-insensitive substring; with an exclude list
configured, no (non-blank) exclude keyword occurs; a missing list passes. -/
def keptSpec (includes excludes : List String) (post : Post) : Prop :=
  (includes ≠ [] → ∃ k ∈ includes,
    pyStrip k ≠ "" ∧ strContains (combinedText post) (pyLower k) = true)
  ∧ (excludes ≠ [] → ∀ k ∈ excludes,
    pyStrip k ≠ "" → strContains (combinedText post) (pyLower k) = false)

/-- The Boolean gate of `_apply_content_filter` decides exactly `keptSpec`. -/
theorem postKept_iff (includes excludes : List String) (p : Post) :
    postKept includes excludes p = true ↔ keptSpec includes excludes p := by
  unfold postKept keptSpec
  rcases includes with _ | ⟨a, as⟩ <;> rcases excludes with _ | ⟨b, bs⟩ <;>
    simp [List.any_eq_true, Bool.and_eq_true, bne_iff_ne, Bool.not_eq_true,
      List.any_eq_false, not_and, Bool.not_eq_true] <;>
    tauto

/-- C6: the keyword filter returns a subset (in fact an order-preserving
sublist) of its input, and a record is in the output exactly when it is in the
input and satisfies the keep-condition: include gate first (some non-blank
include keyword matches case-insensitively in body + `entry_title`), then the
exclude gate (no non-blank exclude keyword matches); a missing list filters
nothing on that dimension. -/
theorem keyword_filter_characterization (includes excludes : List String)
    (posts : List Post) :
    List.Sublist (apply_content_filter includes excludes posts) posts
    ∧ (∀ p, p ∈ apply_content_filter includes excludes posts
        ↔ p ∈ posts ∧ keptSpec includes excludes p) := by
  constructor
  · exact List.filter_sublist posts
  · intro p
    rw [apply_content_filter, List.mem_filter, postKept_iff]

/-- Witness for `keyword_filter_characterization` at a concrete input: the
post with body "new content" and title "T" survives include list
`["Content"]` and exclude list `["spam"]`, and the characterization holds. -/
theorem keyword_filter_characterization_witness :
    apply_content_filter ["Content"] ["spam"] [postP1] = [postP1]
    ∧ (postP1 ∈ apply_content_filter ["Content"] ["spam"] [postP1]
        ↔ postP1 ∈ [postP1] ∧ keptSpec ["Content"] ["spam"] postP1) :=
  ⟨by decide, (keyword_filter_characterization ["Content"] ["spam"] [postP1]).2
    postP1⟩

/-! ## Claim C10 — blank keywords -/

/-- C10: a non-empty include list whose keywords are all blank (empty after
stripping) still arms the include gate but contributes no matchable keyword,
so the filter drops every record; blank keywords in the exclude list never
cause a drop (with no include list configured, an all-blank exclude list
passes every record through). -/
theorem blank_keywords_filter (includes excludes : List String)
    (posts : List Post) :
    (includes ≠ [] → (∀ k ∈ includes, pyStrip k = "") →
      apply_content_filter includes excludes posts = [])
    ∧ ((∀ k ∈ excludes, pyStrip k = "") →
      apply_content_filter [] excludes posts = posts) := by
  constructor
  · intro hne hblank
    unfold apply_content_filter
    rw [List.filter_eq_nil_iff]
    intro p _
    intro hk
    have hke := (postKept_iff includes excludes p).mp hk
    obtain ⟨k, hkmem, hknb, -⟩ := hke.1 hne
    exact hknb (hblank k hkmem)
  · intro hblank
    unfold apply_content_filter
    rw [List.filter_eq_self]
    intro p _
    apply (postKept_iff [] excludes p).mpr
    refine ⟨fun h => absurd rfl h, ?_⟩
    intro _ k hkmem hknb
    exact absurd (hblank k hkmem) hknb

/-- Witness for `blank_keywords_filter` at concrete inputs: include list of a
space and an empty string drops the (otherwise matching) post; an exclude list
of a tab keeps it. -/
theorem blank_keywords_filter_witness :
    apply_content_filter [" ", ""] ["x"] [postP1] = []
    ∧ apply_content_filter [] ["\t"] [postP1] = [postP1] :=
  ⟨(blank_keywords_filter [" ", ""] ["x"] [postP1]).1 (by decide) (by decide),
   (blank_keywords_filter [] ["\t"] [postP1]).2 (by decide)⟩

/-! ## Claim C4 — append-only enhancement -/

/-- A cleaned article text longer than the 100-character threshold. -/
def longText : String := String.mk (List.replicate 101 'a')

/-- A body longer than `longText`, so a successful scrape must not be
appended to it. -/
def longerText : String := String.mk (List.replicate 200 'c')

/-- Scrape oracle whose extraction always yields `longText`. -/
def scrapeLong : String → Option String := fun _ => some longText

/-- C4: enhancement only appends — the pre-enhancement body is a prefix of
the post-enhancement body for both the article scrape and the YouTube
transcript; scraped text survives `scrape_article_content` only above the
100-character threshold; it is appended (under the `Full Content` delimiter)
only when strictly longer than the known body and otherwise the body is
unchanged; and every processed entry keeps its original extracted summary
verbatim in `metadata.rss_content`, a prefix of the final body. -/
theorem enhancement_append_only :
    (∀ (scrape : String → Option String) (rss_content article_url : String),
      ∃ rest, enhance_content scrape rss_content article_url
        = rss_content ++ rest)
    ∧ (∀ (extracted : Option String) (t : String),
      scrape_article_content extracted = some t → 100 < t.length)
    ∧ (∀ (scrape : String → Option String) (rss_content article_url : String),
      enhance_content scrape rss_content article_url = rss_content
      ∨ (∃ sc, scrape_article_content (scrape article_url) = some sc
          ∧ rss_content.length < sc.length
          ∧ enhance_content scrape rss_content article_url
            = rss_content ++ "\nFull Content:\n" ++ sc))
    ∧ (∀ (scrape : String → Option String) (rss_content article_url sc : String),
      scrape_article_content (scrape article_url) = some sc →
      ¬ rss_content.length < sc.length →
      enhance_content scrape rss_content article_url = rss_content)
    ∧ (∀ (extract_flag : Bool) (transcript_api : String → Option String)
        (p : Post),
      ∃ rest, (enhance_youtube_post extract_flag transcript_api p).content
        = p.content ++ rest)
    ∧ (∀ (now : Int) (scrape : String → Option String)
        (db : Option ContentStore) (e : Entry) (feed : FeedData)
        (feed_url : String) (since : Option Int) (p : Post),
      process_rss_entry now scrape db e feed feed_url since = some p →
        p.metadata.rss_content = extract_rss_content e
        ∧ ∃ rest, p.content = p.metadata.rss_content ++ rest) := by
  have hpre : ∀ (scrape : String → Option String)
      (rss_content article_url : String),
      ∃ rest, enhance_content scrape rss_content article_url
        = rss_content ++ rest := by
    intro scrape rss url
    cases h : scrape_article_content (scrape url) with
    | none =>
      refine ⟨"", ?_⟩
      simp only [enhance_content, h]
      exact (String.append_empty rss).symm
    | some sc =>
      by_cases hc : (sc != "" && decide (rss.length < sc.length)) = true
      · refine ⟨"\nFull Content:\n" ++ sc, ?_⟩
        simp only [enhance_content, h]
        rw [if_pos hc, String.append_assoc]
      · refine ⟨"", ?_⟩
        simp only [enhance_content, h]
        rw [if_neg hc]
        exact (String.append_empty rss).symm
  have hthresh : ∀ (extracted : Option String) (t : String),
      scrape_article_content extracted = some t → 100 < t.length := by
    intro x t h
    cases x with
    | none => cases h
    | some txt =>
      simp only [scrape_article_content] at h
      by_cases hl : 100 < (normalizeWs txt).length
      · rw [if_pos hl, Option.some_inj] at h
        rw [← h]
        exact hl
      · rw [if_neg hl] at h
        cases h
  have honly : ∀ (scrape : String → Option String)
      (rss_content article_url : String),
      enhance_content scrape rss_content article_url = rss_content
      ∨ (∃ sc, scrape_article_content (scrape article_url) = some sc
          ∧ rss_content.length < sc.length
          ∧ enhance_content scrape rss_content article_url
            = rss_content ++ "\nFull Content:\n" ++ sc) := by
    intro scrape rss url
    cases h : scrape_article_content (scrape url) with
    | none =>
      refine Or.inl ?_
      simp only [enhance_content, h]
    | some sc =>
      by_cases hc : (sc != "" && decide (rss.length < sc.length)) = true
      · refine Or.inr ⟨sc, rfl, ?_, ?_⟩
        · exact of_decide_eq_true ((Bool.and_eq_true _ _).mp hc).2
        · simp only [enhance_content, h]
          rw [if_pos hc]
      · refine Or.inl ?_
        simp only [enhance_content, h]
        rw [if_neg hc]
  have hnolonger : ∀ (scrape : String → Option String)
      (rss_content article_url sc : String),
      scrape_article_content (scrape article_url) = some sc →
      ¬ rss_content.length < sc.length →
      enhance_content scrape rss_content article_url = rss_content := by
    intro scrape rss url sc h hlen
    simp only [enhance_content, h]
    rw [if_neg]
    intro hc
    exact hlen (of_decide_eq_true ((Bool.and_eq_true _ _).mp hc).2)
  have hyt : ∀ (extract_flag : Bool) (transcript_api : String → Option String)
      (p : Post),
      ∃ rest, (enhance_youtube_post extract_flag transcript_api p).content
        = p.content ++ rest := by
    intro flag api p
    cases hv : extract_video_id p.url with
    | none =>
      refine ⟨"", ?_⟩
      simp only [enhance_youtube_post, hv]
      exact (String.append_empty _).symm
    | some vid =>
      cases ht : get_video_transcript flag api vid with
      | none =>
        refine ⟨"", ?_⟩
        simp only [enhance_youtube_post, hv, ht]
        exact (String.append_empty _).symm
      | some t =>
        by_cases hte : t = ""
        · refine ⟨"", ?_⟩
          simp only [enhance_youtube_post, hv, ht]
          rw [if_pos hte]
          exact (String.append_empty _).symm
        · refine ⟨"\n\n--- YouTube Transcript ---\n" ++ t, ?_⟩
          simp only [enhance_youtube_post, hv, ht]
          rw [if_neg hte, String.append_assoc]
  refine ⟨hpre, hthresh, honly, hnolonger, hyt, ?_⟩
  intro now scrape db e feed feed_url since p h
  simp only [process_rss_entry] at h
  by_cases h1 : (match e.guid with | some g => g | none => e.link.getD "") = ""
  · rw [if_pos h1] at h
    cases h
  · rw [if_neg h1] at h
    by_cases h2 : should_skip_post db (e.link.getD "") since
        (parse_entry_date e) = true
    · rw [if_pos h2] at h
      cases h
    · rw [if_neg h2] at h
      rw [Option.some_inj] at h
      rw [← h]
      exact ⟨rfl, hpre scrape (extract_rss_content e) (e.link.getD "")⟩

set_option maxRecDepth 8000 in
/-- Witness for `enhancement_append_only` at concrete inputs: a 101-character
extraction passes the threshold; a successful scrape shorter than the
200-character body leaves the body unchanged; the processed `entryA` keeps its
summary in `metadata.rss_content`. -/
theorem enhancement_append_only_witness :
    100 < (normalizeWs longText).length
    ∧ enhance_content scrapeLong longerText "https://example.com/a" = longerText
    ∧ (process_rss_entry 200 noScrape (some []) entryA feedDataA
        "https://feeds.example.com/a.xml" (some 50)).map
        (fun p => p.metadata.rss_content) = some (extract_rss_content entryA) := by
  refine ⟨?_, ?_, ?_⟩
  · exact enhancement_append_only.2.1 (some longText) (normalizeWs longText)
      (by decide)
  · exact enhancement_append_only.2.2.2.1 scrapeLong longerText
      "https://example.com/a" (normalizeWs longText) (by decide) (by decide)
  · cases hp : process_rss_entry 200 noScrape (some []) entryA feedDataA
        "https://feeds.example.com/a.xml" (some 50) with
    | none => exact absurd hp (by decide)
    | some p =>
      simp only [Option.map_some']
      exact congrArg some (enhancement_append_only.2.2.2.2.2 200 noScrape
        (some []) entryA feedDataA "https://feeds.example.com/a.xml" (some 50)
        p hp).1

/-! ## Claim C5 — single retry on authentication failure -/

/-- C5: one `authenticate` call performs at most one forced re-authentication
(`token_manager.authenticate()`), performs it exactly when the first token
acquisition failed and never otherwise, and when authentication fails overall
`get_recent_content` returns the empty list instead of raising. -/
theorem youtube_auth_single_retry :
    (∀ g : Except String String, forcedReauthAttempts g ≤ 1)
    ∧ (∀ (g : Except String String) (e : String), g = Except.error e →
        forcedReauthAttempts g = 1)
    ∧ (∀ (g : Except String String) (t : String), g = Except.ok t →
        forcedReauthAttempts g = 0)
    ∧ (∀ (now : Int) (g f : Except String String)
        (listing : Except String (List RawSub))
        (fetch : String → Option RawFeed) (scrape : String → Option String)
        (extract_flag : Bool) (transcript_api : String → Option String)
        (db : Option ContentStore) (since_time : Option Int),
        authenticate g f = false →
        get_recent_content now g f listing fetch scrape extract_flag
          transcript_api db since_time = []) := by
  refine ⟨?_, ?_, ?_, ?_⟩
  · intro g
    cases g <;> simp [forcedReauthAttempts]
  · intro g e h
    rw [h]
    rfl
  · intro g t h
    rw [h]
    rfl
  · intro now g f listing fetch scrape extract_flag transcript_api db
      since_time h
    simp [get_recent_content, h]

/-- Witness for `youtube_auth_single_retry`: with both the acquisition and the
forced re-authentication failing, exactly one retry happens and
`get_recent_content` returns the empty list. -/
theorem youtube_auth_single_retry_witness :
    forcedReauthAttempts (Except.error "no token") = 1
    ∧ get_recent_content 0 (Except.error "no token") (Except.error "proxy down")
        (Except.ok []) fetchA noScrape false (fun _ => none) (some []) none
      = [] :=
  ⟨youtube_auth_single_retry.2.1 (Except.error "no token") "no token" rfl,
   youtube_auth_single_retry.2.2.2 0 (Except.error "no token")
     (Except.error "proxy down") (Except.ok []) fetchA noScrape false
     (fun _ => none) (some []) none rfl⟩

/-! ## Claim C1 — dedup idempotence across two runs -/

/-- C1 evaluation at the failing input: run 1 over the single-entry feed
(GUID `guid-1`, link `https://example.com/a`) returns one post, which
`save_post` stores under primary key `guid-1`; run 2 over the unchanged feed
and the updated store again returns one post — the dedup gate queries the
id-keyed store lookup with the entry's URL and misses, so the entry is NOT
detected as already stored, a record is returned again, and an upsert would
follow.  The skip decision is also shown directly: `_should_skip_post`
against the run-1 store answers `false` for the entry. -/
theorem dedup_defeated_second_run :
    run1Posts.length = 1
    ∧ run1Posts.map Post.id = ["guid-1"]
    ∧ store1.map Row.id = ["guid-1"]
    ∧ should_skip_post (some store1) "https://example.com/a" (some 50)
        (some 100) = false
    ∧ run2Posts.length = 1
    ∧ run2Posts ≠ [] := by
  decide

end Colino

